import Mathlib
/-!
# Verification of the WooCommerce CSV transcriptor

Shallow embedding of `csv_to_woocommerce.py` (the core of the
woocommerceXLSXTrascriptor repository) and proofs about it.

Conventions of the embedding:
* A pandas cell is `Cell`: either the missing marker (`NaN`, for which
  `pd.isna` is true) or a string payload (`str(value)` of the cell).
* Python machine floats are modelled by `ℚ`; `float(...)` string parsing is
  modelled by `parseFloat` (decimal notation with optional sign, decimal
  point and exponent; the `inf`/`nan` words and digit underscores accepted
  by Python are not modelled).  `round(x, 2)` is modelled by `round2`
  (round half to even, Python's rounding mode).
* Fallible Python code is `Option`-valued: `none` models a raised (or
  caught) exception / a returned `None`.
-/
/-- A pandas/DataFrame cell: the missing marker (`NaN`) or a value whose
`str()` form is the stored string. -/
inductive Cell where
  | missing
  | str (s : String)
deriving DecidableEq
/-- `pd.isna` on a cell. -/
def Cell.isMissing : Cell → Bool
  | .missing => true
  | .str _ => false
/-- `str(value)` on a cell (`str(nan) = "nan"`). -/
def cellStr : Cell → String
  | .missing => "nan"
  | .str s => s
/-- Python `str.strip()`: remove leading and trailing whitespace. -/
def pyStrip (s : String) : String :=
  String.mk (((s.toList.dropWhile Char.isWhitespace).reverse.dropWhile
    Char.isWhitespace).reverse)
/-- Python `str.lower()` (ASCII model). -/
def pyLower (s : String) : String :=
  String.mk (s.toList.map Char.toLower)
/-- Line 389: `total_str.replace('€', '').replace(' ', '').replace(',', '.')`.
The three passes are single-character replacements whose outputs never
contain a character a later pass rewrites, so they are embedded as one
filter-then-map over the characters. -/
def cleanTotal (t : String) : String :=
  String.mk ((((t.toList.filter (fun c => !(c == '€'))).filter
    (fun c => !(c == ' '))).map (fun c => if c = ',' then '.' else c)))
/-- Numeric value of a digit string. -/
def digitsVal (l : List Char) : ℕ :=
  l.foldl (fun a c => 10 * a + (c.toNat - 48)) 0
/-- Unsigned decimal mantissa: `digits`, `digits.digits`, `digits.` or
`.digits`. -/
def parseDec (l : List Char) : Option ℚ :=
  let ip := l.takeWhile Char.isDigit
  let rest := l.drop ip.length
  match rest with
  | [] => if ip.isEmpty then none else some (digitsVal ip)
  | '.' :: fp =>
      if fp.all Char.isDigit && !(ip.isEmpty && fp.isEmpty) then
        some ((digitsVal ip : ℚ) + (digitsVal fp : ℚ) / 10 ^ fp.length)
      else none
  | _ => none
/-- Signed decimal integer (for the exponent part). -/
def parseSignedInt (l : List Char) : Option ℤ :=
  match l with
  | '-' :: ds =>
      if ds.all Char.isDigit && !ds.isEmpty then some (-(digitsVal ds : ℤ)) else none
  | '+' :: ds =>
      if ds.all Char.isDigit && !ds.isEmpty then some (digitsVal ds : ℤ) else none
  | ds =>
      if ds.all Char.isDigit && !ds.isEmpty then some (digitsVal ds : ℤ) else none
/-- Unsigned float: mantissa with optional `e`/`E` exponent. -/
def parseUnsignedFloat (l : List Char) : Option ℚ :=
  let m := l.takeWhile (fun c => !(c == 'e' || c == 'E'))
  let r := l.drop m.length
  match parseDec m with
  | none => none
  | some q =>
      match r with
      | [] => some q
      | _ :: es =>
          match parseSignedInt es with
          | some e => some (q * (10 : ℚ) ^ e)
          | none => none
/-- Model of Python `float(string)` on the strings this pipeline feeds it
(decimal literals; the `inf`/`nan` words and digit underscores are not
modelled).  `none` models a raised `ValueError`. -/
def parseFloat (s : String) : Option ℚ :=
  match s.toList with
  | '-' :: l => (parseUnsignedFloat l).map (fun q => -q)
  | '+' :: l => parseUnsignedFloat l
  | l => parseUnsignedFloat l
/-- Python `round(q, 2)`: round `q * 100` half-to-even, divide by 100. -/
def round2 (q : ℚ) : ℚ :=
  let x := q * 100
  let f := ⌊x⌋
  let r := x - f
  let n : ℤ :=
    if r < 1 / 2 then f
    else if 1 / 2 < r then f + 1
    else if f % 2 = 0 then f else f + 1
  (n : ℚ) / 100
/-- The special strings of line 385: `['#VALUE!', 'nan', '']`. -/
def total_sentinels : List String := ["#VALUE!", "nan", ""]
/-- The tax multiplier `1.03` of line 392 (as an exact rational). -/
def taxDiv : ℚ := 103 / 100
/-- Lines 381–394: the price normalizer.  Total function: every
exceptional path of the source is caught there and degrades to `0`. -/
def precio_base (c : Cell) : ℚ :=
  match c with
  | .missing => 0
  | .str s =>
      let t := pyStrip s
      if t ∈ total_sentinels then 0
      else
        match parseFloat (cleanTotal t) with
        | some v => if 0 < v then round2 (v / taxDiv) else 0
        | none => 0
/-!
## ImageFetcher (lines 17–236)

The fetcher's state is its JSON cache, embedded as an association list from
cache keys to `Option String` (a JSON `null` value is `none`).  Filesystem
and network effects are abstracted into a `World` record; a counter in each
result reports how many network requests the call performed, which embeds
the "no network work on a cache hit" observations of the spec.
`hash(product_name)` (Python's process-seeded string hash) is passed in as
an arbitrary function `pyHash : String → ℤ`.
-/
abbrev Cache := List (String × Option String)
def lookupCache (c : Cache) (k : String) : Option (Option String) := c.lookup k
/-- Python `self.cache[key] = v` (only lookups observe the cache, so a
front insertion models the dict update). -/
def cacheSet (c : Cache) (k : String) (v : Option String) : Cache := (k, v) :: c
/-- Filesystem / network environment of one run. -/
structure World where
  fileExists : String → Bool
  downloadOk : String → Bool
/-- Line 116 of the source. -/
def color_codes : List String :=
  ["FF6B6B", "4ECDC4", "45B7D1", "FFA07A", "98D8C8", "F7DC6F", "BB8FCE", "85C1E9"]
/-- Line 120: `product_name[:8].replace(' ', '+').upper()`. -/
def placeholderText (name : String) : String :=
  String.mk ((name.toList.take 8).map (fun c => if c = ' ' then '+' else Char.toUpper c))
/-- Lines 109–131: `get_simple_placeholder_image`.  Total: the `except`
branch of the source (returning the fixed fallback URL) is unreachable in
the embedding because every operation involved is total. -/
def get_simple_placeholder_image (pyHash : String → ℤ) (name : String) : String :=
  let color := color_codes.getD ((pyHash name).natAbs % color_codes.length) ""
  "https://dummyimage.com/400x400/" ++ color ++ "/ffffff&text=" ++ placeholderText name
/-- Line 131: the fixed fallback URL of the `except` branch. -/
def fallback_placeholder_url : String :=
  "https://dummyimage.com/400x400/cccccc/ffffff&text=Producto"
/-- Lines 70–77 (`get_unsplash_image`): disabled, always `None`. -/
def get_unsplash_image (_ : String) : Option String := none
/-- Lines 78–83 (`get_picsum_image`): disabled, always `None`. -/
def get_picsum_image (_ : String) : Option String := none
/-- Line 141: the cache key of the URL variant. -/
def gpiKey (name : String) : String := pyLower (pyStrip name)
/-- Result of `get_product_image`: returned locator, updated cache, and the
number of times the provider fallback chain was run (derivation work). -/
structure GPIResult where
  url : Option String
  cache : Cache
  work : ℕ
deriving DecidableEq
/-- Lines 133–171: `get_product_image`. -/
def get_product_image (pyHash : String → ℤ) (cache : Cache) (name : String) :
    GPIResult :=
  if pyStrip name = "" then ⟨none, cache, 0⟩
  else
    let key := gpiKey name
    let hit : Option String :=
      match lookupCache cache key with
      | some (some u) => if u = "" then none else some u
      | _ => none
    match hit with
    | some u => ⟨some u, cache, 0⟩
    | none =>
        let r1 := get_unsplash_image name
        let r2 := match r1 with
          | some u => some u
          | none => get_picsum_image name
        let url := match r2 with
          | some u => u
          | none => get_simple_placeholder_image pyHash name
        ⟨some url, cacheSet cache key (some url), 1⟩
/-- Lines 179–182: the deterministic safe file name,
`re.sub` of `[^\w\s-]` to nothing then of `[-\s]+` to a hyphen. -/
def safeName (name : String) : String :=
  let kept := (pyLower name).toList.filter
    (fun c => c.isAlphanum || c == '_' || c.isWhitespace || c == '-')
  String.mk (((kept.foldl
    (fun (st : List Char × Bool) c =>
      if c == '-' || c.isWhitespace then
        if st.2 then st else ('-' :: st.1, true)
      else (c :: st.1, false))
    ([], false)).1).reverse)
/-- Python `"%04d"`-style zero padding used for ids. -/
def pad4 (n : ℕ) : String :=
  let s := toString n
  if s.length < 4 then String.mk (List.replicate (4 - s.length) '0') ++ s.toList.asString
  else s
/-- Line 181: `f"producto-{product_id:04d}-{safe_name[:20]}.jpg"`. -/
def imageFilename (name : String) (pid : ℕ) : String :=
  "producto-" ++ pad4 pid ++ "-" ++ String.mk ((safeName name).toList.take 20) ++ ".jpg"
/-- Line 182: `os.path.join(self.images_folder, filename)`. -/
def imageFilepath (name : String) (pid : ℕ) : String :=
  "product_images/" ++ imageFilename name pid
/-- Lines 173–205: `download_image_locally`.  Returns the written path (or
`none` when the download or write failed) together with the number of
network requests issued. -/
def download_image_locally (w : World) (url name : String) (pid : ℕ) :
    Option String × ℕ :=
  let fp := imageFilepath name pid
  if w.fileExists fp then (some fp, 0)
  else if w.downloadOk url then (some fp, 1)
  else (none, 1)
/-- Line 215: the cache key of the locally-downloaded variant. -/
def wcKey (name : String) (pid : ℕ) : String :=
  pyLower (pyStrip name) ++ "_" ++ toString pid
/-- Result of `get_woocommerce_compatible_image`. -/
structure WCResult where
  path : Option String
  cache : Cache
  net : ℕ
deriving DecidableEq
/-- Lines 222–236: the cache-miss tail of `get_woocommerce_compatible_image`
(placeholder URL derivation, local download, conditional cache write). -/
def wc_resolve (pyHash : String → ℤ) (w : World) (cache : Cache)
    (name : String) (pid : ℕ) : WCResult :=
  let url := get_simple_placeholder_image pyHash name
  if url = "" then ⟨none, cache, 0⟩
  else
    match download_image_locally w url name pid with
    | (some lp, n) => ⟨some lp, cacheSet cache (wcKey name pid) (some lp), n⟩
    | (none, n) => ⟨none, cache, n⟩
/-- Lines 207–236: `get_woocommerce_compatible_image`. -/
def get_woocommerce_compatible_image (pyHash : String → ℤ) (w : World)
    (cache : Cache) (name : String) (pid : ℕ) : WCResult :=
  if pyStrip name = "" then ⟨none, cache, 0⟩
  else
    let hit : Option String :=
      match lookupCache cache (wcKey name pid) with
      | some (some p) => if p != "" && w.fileExists p then some p else none
      | _ => none
    match hit with
    | some p => ⟨some p, cache, 0⟩
    | none => wc_resolve pyHash w cache name pid
/-- A stand-in for Python's seeded string hash, used in concrete runs. -/
def hash0 : String → ℤ := fun _ => 0
/-- A world where no file exists and every download succeeds. -/
def worldNoFiles : World := ⟨fun _ => false, fun _ => true⟩
/-- A world where no file exists and every download fails. -/
def worldOffline : World := ⟨fun _ => false, fun _ => false⟩
/-!
## Catalog assembler (lines 238–507)

A sheet (one page of the workbook / the single CSV) is its column list plus
its rows; a row is an association list from column name to cell, and a
column that is in `cols` but absent from a row's list reads as the missing
marker — exactly a DataFrame, where every row has every column.  Accessing
a column that is not in `cols` is a `KeyError`: `getCell` returns `none`
and the caller decides whether the error is caught (the per-row `try`) or
propagates (the `dropna` call).  When image-attachment mode is on, the
per-row image call is abstracted as a function
`resolver : String → ℕ → Option String` standing for
`get_woocommerce_compatible_image` on the fetcher's current state.
-/
abbrev Row := List (String × Cell)
structure Sheet where
  cols : List String
  rows : List Row
/-- `fila[col]`: `none` is a `KeyError` (column absent from the frame),
otherwise the cell (missing when the row has no value there). -/
def getCell (cols : List String) (r : Row) (c : String) : Option Cell :=
  if c ∈ cols then some ((r.lookup c).getD .missing) else none
/-- The rows kept by `df.dropna(subset=['PRODUCTO'])` (line 367). -/
def clean_rows (sh : Sheet) : List Row :=
  sh.rows.filter (fun r => !((r.lookup "PRODUCTO").getD .missing).isMissing)
/-- Line 367: `df.dropna(subset=['PRODUCTO'])` — raises `KeyError`
(modelled `none`) when the column is absent, and this call is not inside
the per-row `try`. -/
def dropna_producto (sh : Sheet) : Option (List Row) :=
  if "PRODUCTO" ∈ sh.cols then some (clean_rows sh) else none
/-- A value of an output record: string, int or float field. -/
inductive Val where
  | vs (s : String)
  | vn (n : ℕ)
  | vq (q : ℚ)
deriving DecidableEq
abbrev Record := List (String × Val)
/-- Lines 309–329: `crear_estructura_woocommerce`, the fixed column list of
the export schema. -/
def crear_estructura_woocommerce : List String :=
  ["ID", "Tipo", "SKU", "GTIN", "Nombre", "Publicado", "¿Está destacado?",
   "Visibilidad en el catálogo", "Descripción corta", "Descripción",
   "Día en que empieza el precio rebajado", "Día en que termina el precio rebajado",
   "Estado del impuesto", "Clase de impuesto", "¿Existencias?", "Inventario",
   "Cantidad de bajo inventario", "¿Permitir reservas de productos agotados?",
   "¿Vendido individualmente?", "Peso (kg)", "Longitud (cm)", "Anchura (cm)",
   "Altura (cm)", "¿Permitir valoraciones de clientes?", "Nota de compra",
   "Precio rebajado", "Precio normal", "Categorías", "Etiquetas",
   "Clase de envío", "Imágenes", "Límite de descargas",
   "Días de caducidad de la descarga", "Superior", "Productos agrupados",
   "Ventas dirigidas", "Ventas cruzadas", "URL externa", "Texto del botón",
   "Posición", "Marcas"]
/-- Line 400: `f"SKU-{contador_id:04d}"`. -/
def sku (n : ℕ) : String := "SKU-" ++ pad4 n
/-- Line 426: category name lowercased, spaces to hyphens. -/
def etiqueta (pagina : String) : String :=
  String.mk ((pyLower pagina).toList.map (fun c => if c = ' ' then '-' else c))
/-- Lines 397–439: the `producto_wc` dict literal. -/
def producto_wc (cid : ℕ) (pagina nombre : String) (precio : ℚ)
    (imagen : String) : Record :=
  [("ID", .vn cid), ("Tipo", .vs "simple"), ("SKU", .vs (sku cid)),
   ("GTIN", .vs ""), ("Nombre", .vs nombre), ("Publicado", .vn 1),
   ("¿Está destacado?", .vn 0), ("Visibilidad en el catálogo", .vs "visible"),
   ("Descripción corta", .vs ("Producto de la categoría " ++ pagina)),
   ("Descripción", .vs ("Producto " ++ nombre ++ " de la categoría " ++ pagina)),
   ("Día en que empieza el precio rebajado", .vs ""),
   ("Día en que termina el precio rebajado", .vs ""),
   ("Estado del impuesto", .vs "taxable"), ("Clase de impuesto", .vs "standard"),
   ("¿Existencias?", .vn 1), ("Inventario", .vn 100),
   ("Cantidad de bajo inventario", .vn 5),
   ("¿Permitir reservas de productos agotados?", .vn 0),
   ("¿Vendido individualmente?", .vn 0), ("Peso (kg)", .vs ""),
   ("Longitud (cm)", .vs ""), ("Anchura (cm)", .vs ""), ("Altura (cm)", .vs ""),
   ("¿Permitir valoraciones de clientes?", .vn 1), ("Nota de compra", .vs ""),
   ("Precio rebajado", .vs ""), ("Precio normal", .vq precio),
   ("Categorías", .vs pagina), ("Etiquetas", .vs (etiqueta pagina)),
   ("Clase de envío", .vs ""), ("Imágenes", .vs imagen),
   ("Límite de descargas", .vs ""), ("Días de caducidad de la descarga", .vs ""),
   ("Superior", .vs ""), ("Productos agrupados", .vs ""),
   ("Ventas dirigidas", .vs ""), ("Ventas cruzadas", .vs ""),
   ("URL externa", .vs ""), ("Texto del botón", .vs ""),
   ("Posición", .vn cid), ("Marcas", .vs "")]
/-- `str(fila['PRODUCTO']).strip()` for a row whose frame has the PRODUCTO
column. -/
def nombreOf (r : Row) : String :=
  pyStrip (cellStr ((r.lookup "PRODUCTO").getD .missing))
/-- Lines 380–455: the body of the per-row `try`.  `none` models a caught
exception (here: `KeyError` on `fila['TOTAL']`), after which the loop
`continue`s without consuming an id. -/
def procesar_fila (cols : List String) (pagina : String) (agregar : Bool)
    (resolver : String → ℕ → Option String) (cid : ℕ) (r : Row) :
    Option Record :=
  match getCell cols r "TOTAL" with
  | none => none
  | some totalCell =>
      let precio := precio_base totalCell
      let nombre := nombreOf r
      if agregar then
        match resolver nombre cid with
        | some p => some (producto_wc cid pagina nombre precio p)
        | none => some (producto_wc cid pagina nombre precio "")
      else some (producto_wc cid pagina nombre precio "")
/-- Lines 377–455: the row loop of one page.  State: `cid` is
`contador_id`, `p` is `productos_procesados`; returns the records accepted
from these rows together with the updated counters. -/
def procesar_filas (cols : List String) (pagina : String)
    (solo agregar : Bool) (resolver : String → ℕ → Option String) :
    List Row → ℕ → ℕ → List Record × ℕ × ℕ
  | [], cid, p => ([], cid, p)
  | r :: rs, cid, p =>
      if solo ∧ 100 ≤ p then ([], cid, p)
      else
        match procesar_fila cols pagina agregar resolver cid r with
        | some rec =>
            let rest := procesar_filas cols pagina solo agregar resolver rs
              (cid + 1) (p + 1)
            (rec :: rest.1, rest.2)
        | none => procesar_filas cols pagina solo agregar resolver rs cid p
/-- Lines 370–375: `min(4, len(df_limpio))`, truncated so the global cap of
100 is not exceeded. -/
def ppc_take (p len : ℕ) : ℕ :=
  let a := min 4 len
  if 100 < p + a then 100 - p else a
/-- Lines 360–455: the page loop.  `none` models the uncaught `KeyError`
raised by `dropna` on a page with no PRODUCTO column, which aborts the
whole batch. -/
def procesar_paginas (solo agregar : Bool)
    (resolver : String → ℕ → Option String) :
    List (String × Sheet) → ℕ → ℕ → Option (List Record)
  | [], _, _ => some []
  | (pagina, sh) :: ps, cid, p =>
      if solo ∧ 100 ≤ p then some []
      else
        match dropna_producto sh with
        | none => none
        | some limpio =>
            let limpio2 := if solo then limpio.take (ppc_take p limpio.length)
              else limpio
            let step := procesar_filas sh.cols pagina solo agregar resolver
              limpio2 cid p
            match procesar_paginas solo agregar resolver ps step.2.1 step.2.2 with
            | none => none
            | some rest => some (step.1 ++ rest)
/-- Lines 331–473: `procesar_datos_a_woocommerce` (counters start at
`contador_id = 1`, `productos_procesados = 0`). -/
def procesar_datos_a_woocommerce (paginas : List (String × Sheet))
    (solo agregar : Bool) (resolver : String → ℕ → Option String) :
    Option (List Record) :=
  procesar_paginas solo agregar resolver paginas 1 0
/-- Line 285: `columnas_esperadas`. -/
def columnas_esperadas : List String := ["PRODUCTO", "PRECIO", "0,3", "TOTAL"]
/-- Lines 293–296: the missing-column report for one page. -/
def columnas_faltantes (sh : Sheet) : List String :=
  columnas_esperadas.filter (fun c => !(c ∈ sh.cols : Bool))
/-- Lines 275–307: `verificar_estructura_datos` only prints the report and
always returns `True` — a missing column never stops the run here. -/
def verificar_estructura_datos (_ : List (String × Sheet)) : Bool := true
/-- Rendering of a record value in the exported file. -/
def showVal : Val → String
  | .vs s => s
  | .vn n => toString n
  | .vq q => toString q
/-- Lines 475–507 (`exportar_csv_woocommerce`): the exported table, header
row (the fixed schema) followed by one row per record, each row giving the
record's values in schema-column order.  Encoding/quoting of the delimited
file is external library behavior and is not modelled. -/
def exportar_csv_woocommerce (out : List Record) : List (List String) :=
  crear_estructura_woocommerce ::
    out.map (fun r => crear_estructura_woocommerce.map
      (fun c => showVal ((r.lookup c).getD (.vs ""))))
/-- The trivial resolver used in concrete runs without image mode. -/
def resolver0 : String → ℕ → Option String := fun _ _ => none
/-- The record-identity fields the assembler assigns: element `i` of a list
satisfying `idsOk n` carries id `n + i` in `ID` and `Posición` and the
matching zero-padded SKU. -/
def idsOk : ℕ → List Record → Prop
  | _, [] => True
  | n, r :: rs =>
      r.lookup "ID" = some (.vn n) ∧ r.lookup "Posición" = some (.vn n) ∧
      r.lookup "SKU" = some (.vs (sku n)) ∧ idsOk (n + 1) rs
/-- The running total of accepted rows in sample mode, page by page
(`p` is the count already accepted). -/
def solo_total : ℕ → List ℕ → ℕ
  | p, [] => p
  | p, c :: cs => if 100 ≤ p then p else solo_total (p + ppc_take p c) cs
/-- The rows sample mode plans to accept, page by page: the first
`ppc_take` rows of each page's kept rows, in source order. -/
def solo_plan : ℕ → List (List Row) → List (List Row)
  | _, [] => []
  | p, rows :: rest =>
      if 100 ≤ p then [] :: solo_plan p rest
      else rows.take (ppc_take p rows.length)
        :: solo_plan (p + ppc_take p rows.length) rest
def ej1 : List (String × Sheet) :=
  [("c", ⟨["PRODUCTO", "TOTAL"],
    [[("PRODUCTO", Cell.str "a")], [("PRODUCTO", Cell.str "b")]]⟩)]
def cex5 : List (String × Sheet) :=
  [("c", ⟨["PRODUCTO", "TOTAL"],
    [[("PRODUCTO", Cell.str "")], [("PRODUCTO", Cell.str "b")]]⟩)]
def ej3_sheet : Sheet :=
  ⟨["PRODUCTO", "TOTAL"], List.replicate 10 [("PRODUCTO", Cell.str "a")]⟩
def ej3 : List (String × Sheet) :=
  [("c1", ej3_sheet), ("c2", ej3_sheet), ("c3", ej3_sheet)]
def cex7 : List (String × Sheet) :=
  [("c", ⟨["PRODUCTO", "TOTAL"],
    [[("PRODUCTO", Cell.str "")], [("PRODUCTO", Cell.str "a")],
     [("PRODUCTO", Cell.str "b")], [("PRODUCTO", Cell.str "c")],
     [("PRODUCTO", Cell.str "d")]]⟩)]
/-- A sheet with its missing-product rows removed in advance. -/
def filter_producto (sh : Sheet) : Sheet := ⟨sh.cols, clean_rows sh⟩
def cex8 : List (String × Sheet) :=
  [("c", ⟨["PRODUCTO", "TOTAL"], [[("PRODUCTO", Cell.str "")]]⟩)]
def sin_producto : List (String × Sheet) :=
  [("c", ⟨["TOTAL"], [[("TOTAL", Cell.str "1")]]⟩)]
lemma parseFloat_value_sentinel : parseFloat (cleanTotal "#VALUE!") = none := rfl
lemma parseFloat_nan_sentinel : parseFloat (cleanTotal "nan") = none := rfl
lemma parseFloat_empty_sentinel : parseFloat (cleanTotal "") = none := rfl
/-- C1: for every total-price cell whose cleaned string (currency symbol and
spaces removed, commas converted to points) parses as a number `v`, the
price normalizer of lines 381–394 produces `round(v / 1.03, 2)` when `v` is
positive and `0` when `v` is non-positive. -/
theorem precio_base_parse_correct (s : String) (v : ℚ)
    (h : parseFloat (cleanTotal (pyStrip s)) = some v) :
    precio_base (.str s) = if 0 < v then round2 (v / taxDiv) else 0 := by
  by_cases hs : pyStrip s ∈ total_sentinels
  · exfalso
    have hcases : pyStrip s = "#VALUE!" ∨ pyStrip s = "nan" ∨ pyStrip s = "" := by
      simpa [total_sentinels] using hs
    rcases hcases with h1 | h1 | h1 <;> rw [h1] at h
    · exact Option.noConfusion (parseFloat_value_sentinel ▸ h)
    · exact Option.noConfusion (parseFloat_nan_sentinel ▸ h)
    · exact Option.noConfusion (parseFloat_empty_sentinel ▸ h)
  · simp only [precio_base, if_neg hs, h]
/-- Witness for C1: `"103,00 €"` is normalized to exactly `100`. -/
theorem precio_base_parse_correct_witness :
    precio_base (.str "103,00 €") = 100 := by
  have h : parseFloat (cleanTotal (pyStrip "103,00 €"))
      = some ((digitsVal ['1', '0', '3'] : ℚ) + (digitsVal ['0', '0'] : ℚ) / 10 ^ 2) := rfl
  have d1 : digitsVal ['1', '0', '3'] = 103 := by decide
  have d2 : digitsVal ['0', '0'] = 0 := by decide
  rw [d1, d2] at h
  have h103 : ((103 : ℕ) : ℚ) + ((0 : ℕ) : ℚ) / 10 ^ 2 = 103 := by norm_num
  rw [h103] at h
  rw [precio_base_parse_correct "103,00 €" 103 h]
  norm_num [round2, taxDiv]
/-- C2: a total-price cell that is missing, whose trimmed form is one of the
sentinels `""`, `"nan"`, `"#VALUE!"`, or whose cleaned string fails to parse
as a float is normalized to exactly `0`.  `precio_base` is a total Lean
function, which embeds the guarantee that no exception escapes this step. -/
theorem precio_base_degrades_to_zero (c : Cell)
    (h : c = .missing ∨ ∃ s, c = .str s ∧
      (pyStrip s ∈ total_sentinels ∨ parseFloat (cleanTotal (pyStrip s)) = none)) :
    precio_base c = 0 := by
  rcases h with h | ⟨s, rfl, hs | hp⟩
  · rw [h]; rfl
  · simp only [precio_base, if_pos hs]
  · by_cases hs : pyStrip s ∈ total_sentinels
    · simp only [precio_base, if_pos hs]
    · simp only [precio_base, if_neg hs, hp]
/-- Witness for C2: the error sentinel `"#VALUE!"` yields price `0`. -/
theorem precio_base_degrades_to_zero_witness :
    precio_base (.str "#VALUE!") = 0 :=
  precio_base_degrades_to_zero (.str "#VALUE!")
    (Or.inr ⟨"#VALUE!", rfl, Or.inl (by decide)⟩)
lemma lookupCache_cacheSet (c : Cache) (k : String) (v : Option String) :
    lookupCache (cacheSet c k v) k = some v := by
  simp [lookupCache, cacheSet, List.lookup]
/-- The cache-miss tail either fails leaving the cache untouched, or
succeeds and writes the returned path under the lookup key. -/
lemma wc_resolve_cases (pyHash : String → ℤ) (w : World) (cache : Cache)
    (name : String) (pid : ℕ) :
    ((wc_resolve pyHash w cache name pid).path = none ∧
      (wc_resolve pyHash w cache name pid).cache = cache) ∨
    (∃ lp, (wc_resolve pyHash w cache name pid).path = some lp ∧
      (wc_resolve pyHash w cache name pid).cache
        = cacheSet cache (wcKey name pid) (some lp)) := by
  unfold wc_resolve download_image_locally
  by_cases hurl : get_simple_placeholder_image pyHash name = ""
  · simp [hurl]
  · by_cases hex : w.fileExists (imageFilepath name pid)
    · simp [hurl, hex]
    · by_cases hdl : w.downloadOk (get_simple_placeholder_image pyHash name)
      · simp [hurl, hex, hdl]
      · simp [hurl, hex, hdl]
/-- C3 (amended): a lookup whose key is cached with a non-empty value — for
the local-download variant additionally one whose cached path still exists
on disk — returns the cached value, leaves the cache unchanged and performs
no derivation or network work. -/
theorem cache_hit_short_circuits :
    (∀ pyHash cache name u, pyStrip name ≠ "" →
        lookupCache cache (gpiKey name) = some (some u) → u ≠ "" →
        get_product_image pyHash cache name = ⟨some u, cache, 0⟩) ∧
    (∀ pyHash w cache name pid p, pyStrip name ≠ "" →
        lookupCache cache (wcKey name pid) = some (some p) → p ≠ "" →
        w.fileExists p = true →
        get_woocommerce_compatible_image pyHash w cache name pid
          = ⟨some p, cache, 0⟩) := by
  constructor
  · intro pyHash cache name u hne hlook hu
    simp only [get_product_image, if_neg hne, hlook, if_neg hu]
  · intro pyHash w cache name pid p hne hlook hp hf
    simp [get_woocommerce_compatible_image, if_neg hne, hlook, hf, hp]
/-- Witness for C3: a concrete cache hit on the URL variant. -/
theorem cache_hit_short_circuits_witness :
    get_product_image hash0 [("a", some "u")] "A"
      = ⟨some "u", [("a", some "u")], 0⟩ :=
  cache_hit_short_circuits.1 hash0 [("a", some "u")] "A" "u"
    (by decide) (by decide) (by decide)
/-- Counterexample for C3 as stated: with key `"x_1"` cached to the
non-empty value `"p"` but the file `"p"` absent from disk, the
local-download variant issues a network request and does not return the
cached value — the claim as stated does not require the cached path to
exist on disk. -/
theorem cache_hit_claim_cex :
    (get_woocommerce_compatible_image hash0 worldNoFiles [("x_1", some "p")]
        "x" 1).net = 1 ∧
    (get_woocommerce_compatible_image hash0 worldNoFiles [("x_1", some "p")]
        "x" 1).path ≠ some "p" := by decide
/-- C4 (amended): the URL variant records the outcome under the key
regardless of path taken; the local-download variant records the outcome
only on success, and a failed resolution leaves the cache unchanged (it is
not memoized). -/
theorem cache_records_outcome :
    (∀ pyHash cache name, pyStrip name ≠ "" →
        lookupCache (get_product_image pyHash cache name).cache (gpiKey name)
          = some (get_product_image pyHash cache name).url) ∧
    (∀ pyHash w cache name pid p,
        (get_woocommerce_compatible_image pyHash w cache name pid).path = some p →
        lookupCache (get_woocommerce_compatible_image pyHash w cache name pid).cache
          (wcKey name pid) = some (some p)) ∧
    (∀ pyHash w cache name pid,
        (get_woocommerce_compatible_image pyHash w cache name pid).path = none →
        (get_woocommerce_compatible_image pyHash w cache name pid).cache
          = cache) := by
  refine ⟨?_, ?_, ?_⟩
  · intro pyHash cache name hne
    simp only [get_product_image, if_neg hne]
    rcases hl : lookupCache cache (gpiKey name) with _ | op
    · simp [lookupCache, cacheSet, List.lookup, hl]
    · rcases op with _ | u
      · simp [lookupCache, cacheSet, List.lookup, hl]
      · by_cases hu : u = ""
        · simp [lookupCache, cacheSet, List.lookup, hl, hu]
        · simp [hl, hu]
  · intro pyHash w cache name pid p hp
    by_cases hne : pyStrip name = ""
    · simp [get_woocommerce_compatible_image, hne] at hp
    · rcases wc_resolve_cases pyHash w cache name pid with hres | ⟨lp, hlp, hc⟩ <;>
        simp only [get_woocommerce_compatible_image, if_neg hne] at hp ⊢ <;>
        rcases hl : lookupCache cache (wcKey name pid) with _ | op <;>
        simp only [hl] at hp ⊢
      · rw [hres.1] at hp; exact Option.noConfusion hp
      · rcases op with _ | p0
        · rw [hres.1] at hp; exact Option.noConfusion hp
        · by_cases hcond : (p0 != "" && w.fileExists p0) = true
          · simp only [hcond, if_true] at hp ⊢
            obtain rfl : p0 = p := Option.some.injEq .. ▸ hp
            exact hl
          · simp only [Bool.not_eq_true] at hcond
            simp only [hcond, Bool.false_eq_true, if_false] at hp ⊢
            rw [hres.1] at hp; exact Option.noConfusion hp
      · rw [hlp] at hp
        obtain rfl : lp = p := Option.some.injEq .. ▸ hp
        rw [hc]
        exact lookupCache_cacheSet cache (wcKey name pid) (some lp)
      · rcases op with _ | p0
        · rw [hlp] at hp
          obtain rfl : lp = p := Option.some.injEq .. ▸ hp
          rw [hc]
          exact lookupCache_cacheSet cache (wcKey name pid) (some lp)
        · by_cases hcond : (p0 != "" && w.fileExists p0) = true
          · simp only [hcond, if_true] at hp ⊢
            obtain rfl : p0 = p := Option.some.injEq .. ▸ hp
            exact hl
          · simp only [Bool.not_eq_true] at hcond
            simp only [hcond, Bool.false_eq_true, if_false] at hp ⊢
            rw [hlp] at hp
            obtain rfl : lp = p := Option.some.injEq .. ▸ hp
            rw [hc]
            exact lookupCache_cacheSet cache (wcKey name pid) (some lp)
  · intro pyHash w cache name pid hp
    by_cases hne : pyStrip name = ""
    · simp [get_woocommerce_compatible_image, hne]
    · rcases wc_resolve_cases pyHash w cache name pid with hres | ⟨lp, hlp, hc⟩ <;>
        simp only [get_woocommerce_compatible_image, if_neg hne] at hp ⊢ <;>
        rcases hl : lookupCache cache (wcKey name pid) with _ | op <;>
        simp only [hl] at hp ⊢
      · exact hres.2
      · rcases op with _ | p0
        · exact hres.2
        · by_cases hcond : (p0 != "" && w.fileExists p0) = true
          · simp [hcond] at hp
          · simp only [Bool.not_eq_true] at hcond
            simp only [hcond, Bool.false_eq_true, if_false]
            exact hres.2
      · rw [hlp] at hp; exact Option.noConfusion hp
      · rcases op with _ | p0
        · rw [hlp] at hp; exact Option.noConfusion hp
        · by_cases hcond : (p0 != "" && w.fileExists p0) = true
          · simp [hcond] at hp
          · simp only [Bool.not_eq_true] at hcond
            simp only [hcond, Bool.false_eq_true, if_false] at hp
            rw [hlp] at hp; exact Option.noConfusion hp
/-- Witness for C4: after a fresh URL-variant lookup the cache holds the
outcome under the key. -/
theorem cache_records_outcome_witness :
    lookupCache (get_product_image hash0 [] "x").cache (gpiKey "x")
      = some (get_product_image hash0 [] "x").url :=
  cache_records_outcome.1 hash0 [] "x" (by decide)
/-- Counterexample for C4 as stated: in an offline world a failed
local-download resolution for `"x"` leaves the (initially empty) cache with
no entry at all for the key — the failure is not memoized as an empty
marker, contrary to the claim. -/
theorem failed_resolution_not_memoized :
    (get_woocommerce_compatible_image hash0 worldOffline [] "x" 1).path = none ∧
    lookupCache (get_woocommerce_compatible_image hash0 worldOffline [] "x" 1).cache
      (wcKey "x" 1) = none := by decide
/-- C10: the placeholder generator returns a non-empty URL for every
product name, its exception fallback is the fixed non-empty URL, and the
URL-variant resolution chain never yields `None` for a name that is
non-empty after stripping. -/
theorem placeholder_chain_never_empty :
    (∀ pyHash name, get_simple_placeholder_image pyHash name ≠ "") ∧
    fallback_placeholder_url ≠ "" ∧
    (∀ pyHash cache name, pyStrip name ≠ "" →
        (get_product_image pyHash cache name).url ≠ none) := by
  have hgen : ∀ (pyHash : String → ℤ) name,
      get_simple_placeholder_image pyHash name ≠ "" := by
    intro pyHash name h
    have hlen := congrArg String.length h
    simp only [get_simple_placeholder_image, String.length_append] at hlen
    have h31 : ("https://dummyimage.com/400x400/" : String).length = 31 := rfl
    have h0 : ("" : String).length = 0 := rfl
    rw [h31, h0] at hlen
    omega
  refine ⟨hgen, by decide, ?_⟩
  intro pyHash cache name hne
  simp only [get_product_image, if_neg hne]
  rcases hl : lookupCache cache (gpiKey name) with _ | op
  · simp
  · rcases op with _ | u
    · simp
    · by_cases hu : u = "" <;> simp [hu]
/-- Witness for C10: the chain returns a locator for `"Producto"`. -/
theorem placeholder_chain_never_empty_witness :
    (get_product_image hash0 [] "Producto").url ≠ none :=
  placeholder_chain_never_empty.2.2 hash0 [] "Producto" (by decide)
lemma producto_wc_keys (cid : ℕ) (pagina nombre : String) (precio : ℚ)
    (imagen : String) :
    (producto_wc cid pagina nombre precio imagen).map Prod.fst
      = crear_estructura_woocommerce := rfl
lemma procesar_fila_eq (cols : List String) (pagina : String) (agregar : Bool)
    (resolver : String → ℕ → Option String) (cid : ℕ) (r : Row) (rec : Record)
    (h : procesar_fila cols pagina agregar resolver cid r = some rec) :
    ∃ img, rec = producto_wc cid pagina (nombreOf r)
      (precio_base ((r.lookup "TOTAL").getD .missing)) img := by
  unfold procesar_fila at h
  rcases hg : getCell cols r "TOTAL" with _ | tc
  · rw [hg] at h; exact Option.noConfusion h
  · have htc : tc = (r.lookup "TOTAL").getD .missing := by
      unfold getCell at hg
      by_cases ht : "TOTAL" ∈ cols
      · rw [if_pos ht] at hg
        exact (Option.some.injEq .. ▸ hg).symm
      · rw [if_neg ht] at hg; exact Option.noConfusion hg
    rw [hg] at h
    subst htc
    simp only at h
    by_cases ha : agregar
    · rw [if_pos ha] at h
      rcases hr : resolver (nombreOf r) cid with _ | img <;> rw [hr] at h
      · exact ⟨"", (Option.some.injEq .. ▸ h).symm⟩
      · exact ⟨img, (Option.some.injEq .. ▸ h).symm⟩
    · rw [if_neg ha] at h
      exact ⟨"", (Option.some.injEq .. ▸ h).symm⟩
lemma procesar_fila_fields (cols : List String) (pagina : String)
    (agregar : Bool) (resolver : String → ℕ → Option String) (cid : ℕ)
    (r : Row) (rec : Record)
    (h : procesar_fila cols pagina agregar resolver cid r = some rec) :
    rec.lookup "ID" = some (.vn cid) ∧
    rec.lookup "Posición" = some (.vn cid) ∧
    rec.lookup "SKU" = some (.vs (sku cid)) ∧
    rec.lookup "Nombre" = some (.vs (nombreOf r)) ∧
    rec.map Prod.fst = crear_estructura_woocommerce := by
  obtain ⟨img, rfl⟩ := procesar_fila_eq cols pagina agregar resolver cid r rec h
  exact ⟨rfl, rfl, rfl, rfl, rfl⟩
lemma procesar_fila_some (cols : List String) (pagina : String)
    (agregar : Bool) (resolver : String → ℕ → Option String) (cid : ℕ)
    (r : Row) (ht : "TOTAL" ∈ cols) :
    (procesar_fila cols pagina agregar resolver cid r).isSome = true := by
  unfold procesar_fila getCell
  rw [if_pos ht]
  simp only
  by_cases ha : agregar
  · rw [if_pos ha]
    rcases resolver (nombreOf r) cid with _ | img <;> simp
  · rw [if_neg ha]; simp
lemma procesar_fila_total_missing (cols : List String) (pagina : String)
    (agregar : Bool) (resolver : String → ℕ → Option String) (cid : ℕ)
    (r : Row) (ht : "TOTAL" ∉ cols) :
    procesar_fila cols pagina agregar resolver cid r = none := by
  unfold procesar_fila getCell
  rw [if_neg ht]
lemma procesar_filas_counters (cols : List String) (pagina : String)
    (solo agregar : Bool) (resolver : String → ℕ → Option String)
    (rows : List Row) : ∀ cid p,
    (procesar_filas cols pagina solo agregar resolver rows cid p).2
      = (cid + (procesar_filas cols pagina solo agregar resolver rows cid p).1.length,
         p + (procesar_filas cols pagina solo agregar resolver rows cid p).1.length) := by
  induction rows with
  | nil => intro cid p; simp [procesar_filas]
  | cons r rs ih =>
      intro cid p
      simp only [procesar_filas]
      by_cases hb : solo ∧ 100 ≤ p
      · simp [if_pos hb]
      · rw [if_neg hb]
        rcases hf : procesar_fila cols pagina agregar resolver cid r with _ | rec
        · exact ih cid p
        · simp only [List.length_cons]
          rw [ih (cid + 1) (p + 1)]
          simp only [Prod.mk.injEq]
          omega
lemma idsOk_append {l1 l2 : List Record} : ∀ {m : ℕ}, idsOk m l1 →
    idsOk (m + l1.length) l2 → idsOk m (l1 ++ l2) := by
  induction l1 with
  | nil => intro m _ h2; simpa using h2
  | cons r rs ih =>
      intro m h1 h2
      obtain ⟨hID, hPos, hSKU, hrest⟩ := h1
      refine ⟨hID, hPos, hSKU, ih hrest ?_⟩
      have : m + (r :: rs).length = m + 1 + rs.length := by
        simp [List.length_cons]; omega
      rw [this] at h2
      exact h2
lemma procesar_filas_idsOk (cols : List String) (pagina : String)
    (solo agregar : Bool) (resolver : String → ℕ → Option String)
    (rows : List Row) : ∀ cid p,
    idsOk cid (procesar_filas cols pagina solo agregar resolver rows cid p).1 := by
  induction rows with
  | nil => intro cid p; simp [procesar_filas, idsOk]
  | cons r rs ih =>
      intro cid p
      simp only [procesar_filas]
      by_cases hb : solo ∧ 100 ≤ p
      · simp [if_pos hb, idsOk]
      · rw [if_neg hb]
        rcases hf : procesar_fila cols pagina agregar resolver cid r with _ | rec
        · exact ih cid p
        · obtain ⟨hID, hPos, hSKU, _, _⟩ :=
            procesar_fila_fields cols pagina agregar resolver cid r rec hf
          exact ⟨hID, hPos, hSKU, ih (cid + 1) (p + 1)⟩
lemma procesar_filas_keys (cols : List String) (pagina : String)
    (solo agregar : Bool) (resolver : String → ℕ → Option String)
    (rows : List Row) : ∀ cid p,
    ∀ rec ∈ (procesar_filas cols pagina solo agregar resolver rows cid p).1,
      rec.map Prod.fst = crear_estructura_woocommerce := by
  induction rows with
  | nil => intro cid p rec h; simp [procesar_filas] at h
  | cons r rs ih =>
      intro cid p rec h
      simp only [procesar_filas] at h
      by_cases hb : solo ∧ 100 ≤ p
      · simp [if_pos hb] at h
      · rw [if_neg hb] at h
        rcases hf : procesar_fila cols pagina agregar resolver cid r with _ | rec0 <;>
          rw [hf] at h
        · exact ih cid p rec h
        · simp only [List.mem_cons] at h
          rcases h with rfl | h
          · exact (procesar_fila_fields cols pagina agregar resolver cid r rec hf).2.2.2.2
          · exact ih (cid + 1) (p + 1) rec h
lemma procesar_filas_names (cols : List String) (pagina : String)
    (solo agregar : Bool) (resolver : String → ℕ → Option String)
    (rows : List Row) (ht : "TOTAL" ∈ cols) : ∀ cid p,
    (solo = true → p + rows.length ≤ 100) →
    (procesar_filas cols pagina solo agregar resolver rows cid p).1.map
        (fun r => r.lookup "Nombre")
      = rows.map (fun r => some (Val.vs (nombreOf r))) := by
  induction rows with
  | nil => intro cid p _; simp [procesar_filas]
  | cons r rs ih =>
      intro cid p hcap
      have hb : ¬(solo ∧ 100 ≤ p) := by
        rintro ⟨hs, hp⟩
        have := hcap hs
        simp [List.length_cons] at this
        omega
      simp only [procesar_filas, if_neg hb]
      rcases hf : procesar_fila cols pagina agregar resolver cid r with _ | rec
      · exfalso
        have := procesar_fila_some cols pagina agregar resolver cid r ht
        rw [hf] at this
        exact Bool.noConfusion this
      · have hNom :=
          (procesar_fila_fields cols pagina agregar resolver cid r rec hf).2.2.2.1
        simp only [List.map_cons, hNom]
        rw [ih (cid + 1) (p + 1) (fun hs => by have := hcap hs; simp [List.length_cons] at this; omega)]
lemma procesar_filas_len (cols : List String) (pagina : String)
    (solo agregar : Bool) (resolver : String → ℕ → Option String)
    (rows : List Row) (ht : "TOTAL" ∈ cols) (cid p : ℕ)
    (hcap : solo = true → p + rows.length ≤ 100) :
    (procesar_filas cols pagina solo agregar resolver rows cid p).1.length
      = rows.length := by
  have := congrArg List.length
    (procesar_filas_names cols pagina solo agregar resolver rows ht cid p hcap)
  simpa using this
lemma procesar_filas_total_missing_nil (cols : List String) (pagina : String)
    (solo agregar : Bool) (resolver : String → ℕ → Option String)
    (rows : List Row) (ht : "TOTAL" ∉ cols) : ∀ cid p,
    procesar_filas cols pagina solo agregar resolver rows cid p = ([], cid, p) := by
  induction rows with
  | nil => intro cid p; simp [procesar_filas]
  | cons r rs ih =>
      intro cid p
      simp only [procesar_filas]
      by_cases hb : solo ∧ 100 ≤ p
      · simp [if_pos hb]
      · rw [if_neg hb,
          procesar_fila_total_missing cols pagina agregar resolver cid r ht]
        exact ih cid p
lemma procesar_paginas_idsOk (solo agregar : Bool)
    (resolver : String → ℕ → Option String) (ps : List (String × Sheet)) :
    ∀ cid p out, procesar_paginas solo agregar resolver ps cid p = some out →
      idsOk cid out := by
  induction ps with
  | nil =>
      intro cid p out h
      simp only [procesar_paginas, Option.some.injEq] at h
      subst h; trivial
  | cons page ps ih =>
      rcases page with ⟨pagina, sh⟩
      intro cid p out h
      simp only [procesar_paginas] at h
      by_cases hb : solo ∧ 100 ≤ p
      · rw [if_pos hb] at h
        simp only [Option.some.injEq] at h
        subst h; trivial
      · rw [if_neg hb] at h
        rcases hd : dropna_producto sh with _ | limpio <;> rw [hd] at h
        · exact Option.noConfusion h
        · simp only at h
          rcases hr : procesar_paginas solo agregar resolver ps
              (procesar_filas sh.cols pagina solo agregar resolver
                (if solo = true then limpio.take (ppc_take p limpio.length) else limpio)
                cid p).2.1
              (procesar_filas sh.cols pagina solo agregar resolver
                (if solo = true then limpio.take (ppc_take p limpio.length) else limpio)
                cid p).2.2 with _ | rest <;> rw [hr] at h
          · exact Option.noConfusion h
          · simp only [Option.some.injEq] at h
            subst h
            have h1 := procesar_filas_idsOk sh.cols pagina solo agregar resolver
              (if solo = true then limpio.take (ppc_take p limpio.length) else limpio) cid p
            have hc := procesar_filas_counters sh.cols pagina solo agregar resolver
              (if solo = true then limpio.take (ppc_take p limpio.length) else limpio) cid p
            have h2 := ih _ _ rest hr
            rw [hc] at h2
            exact idsOk_append h1 h2
/-- Decomposition of a successful page step: the kept rows of the page are
processed, then the remaining pages continue from the updated counters. -/
lemma procesar_paginas_cons_some (solo agregar : Bool)
    (resolver : String → ℕ → Option String) (pagina : String) (sh : Sheet)
    (ps : List (String × Sheet)) (cid p : ℕ) (out : List Record)
    (hb : ¬(solo ∧ 100 ≤ p))
    (h : procesar_paginas solo agregar resolver ((pagina, sh) :: ps) cid p
      = some out) :
    ∃ limpio rest,
      dropna_producto sh = some limpio ∧
      procesar_paginas solo agregar resolver ps
        (procesar_filas sh.cols pagina solo agregar resolver
          (if solo = true then limpio.take (ppc_take p limpio.length) else limpio)
          cid p).2.1
        (procesar_filas sh.cols pagina solo agregar resolver
          (if solo = true then limpio.take (ppc_take p limpio.length) else limpio)
          cid p).2.2 = some rest ∧
      out = (procesar_filas sh.cols pagina solo agregar resolver
          (if solo = true then limpio.take (ppc_take p limpio.length) else limpio)
          cid p).1 ++ rest := by
  simp only [procesar_paginas, if_neg hb] at h
  rcases hd : dropna_producto sh with _ | limpio <;> rw [hd] at h
  · exact Option.noConfusion h
  · simp only at h
    rcases hr : procesar_paginas solo agregar resolver ps
        (procesar_filas sh.cols pagina solo agregar resolver
          (if solo = true then limpio.take (ppc_take p limpio.length) else limpio)
          cid p).2.1
        (procesar_filas sh.cols pagina solo agregar resolver
          (if solo = true then limpio.take (ppc_take p limpio.length) else limpio)
          cid p).2.2 with _ | rest <;> rw [hr] at h
    · exact Option.noConfusion h
    · simp only [Option.some.injEq] at h
      exact ⟨limpio, rest, rfl, hr, h.symm⟩
lemma procesar_paginas_keys (solo agregar : Bool)
    (resolver : String → ℕ → Option String) (ps : List (String × Sheet)) :
    ∀ cid p out, procesar_paginas solo agregar resolver ps cid p = some out →
      ∀ rec ∈ out, rec.map Prod.fst = crear_estructura_woocommerce := by
  induction ps with
  | nil =>
      intro cid p out h rec hm
      simp only [procesar_paginas, Option.some.injEq] at h
      subst h
      simp at hm
  | cons page ps ih =>
      rcases page with ⟨pagina, sh⟩
      intro cid p out h rec hm
      by_cases hb : solo ∧ 100 ≤ p
      · simp only [procesar_paginas, if_pos hb, Option.some.injEq] at h
        subst h
        simp at hm
      · obtain ⟨limpio, rest, hd, hr, rfl⟩ :=
          procesar_paginas_cons_some solo agregar resolver pagina sh ps cid p
            out hb h
        rcases List.mem_append.mp hm with hm | hm
        · exact procesar_filas_keys sh.cols pagina solo agregar resolver _
            cid p rec hm
        · exact ih _ _ rest hr rec hm
lemma procesar_paginas_isSome (solo agregar : Bool)
    (resolver : String → ℕ → Option String) (ps : List (String × Sheet)) :
    ∀ cid p, (∀ pr ∈ ps, "PRODUCTO" ∈ pr.2.cols) →
      (procesar_paginas solo agregar resolver ps cid p).isSome = true := by
  induction ps with
  | nil => intro cid p _; simp [procesar_paginas]
  | cons page ps ih =>
      rcases page with ⟨pagina, sh⟩
      intro cid p hcols
      simp only [procesar_paginas]
      by_cases hb : solo ∧ 100 ≤ p
      · simp [if_pos hb]
      · rw [if_neg hb]
        have hd : dropna_producto sh = some (clean_rows sh) := by
          unfold dropna_producto
          rw [if_pos (hcols (pagina, sh) (by simp))]
        rw [hd]
        have hrest := ih
          (procesar_filas sh.cols pagina solo agregar resolver
            (if solo = true then (clean_rows sh).take (ppc_take p (clean_rows sh).length)
              else clean_rows sh) cid p).2.1
          (procesar_filas sh.cols pagina solo agregar resolver
            (if solo = true then (clean_rows sh).take (ppc_take p (clean_rows sh).length)
              else clean_rows sh) cid p).2.2
          (fun pr hm => hcols pr (by simp [hm]))
        rcases hr : procesar_paginas solo agregar resolver ps
            (procesar_filas sh.cols pagina solo agregar resolver
              (if solo = true then (clean_rows sh).take (ppc_take p (clean_rows sh).length)
                else clean_rows sh) cid p).2.1
            (procesar_filas sh.cols pagina solo agregar resolver
              (if solo = true then (clean_rows sh).take (ppc_take p (clean_rows sh).length)
                else clean_rows sh) cid p).2.2 with _ | rest
        · rw [hr] at hrest; exact Bool.noConfusion hrest
        · simp only [hr]; simp
lemma procesar_paginas_len_nosolo (agregar : Bool)
    (resolver : String → ℕ → Option String) (ps : List (String × Sheet)) :
    ∀ cid p out,
      (∀ pr ∈ ps, "PRODUCTO" ∈ pr.2.cols ∧ "TOTAL" ∈ pr.2.cols) →
      procesar_paginas false agregar resolver ps cid p = some out →
      out.length = (ps.map (fun pr => (clean_rows pr.2).length)).sum := by
  induction ps with
  | nil =>
      intro cid p out _ h
      simp only [procesar_paginas, Option.some.injEq] at h
      subst h; simp
  | cons page ps ih =>
      rcases page with ⟨pagina, sh⟩
      intro cid p out hcols h
      have hb : ¬((false : Bool) ∧ 100 ≤ p) := by simp
      obtain ⟨limpio, rest, hd, hr, rfl⟩ :=
        procesar_paginas_cons_some false agregar resolver pagina sh ps cid p
          out hb h
      have hlim : limpio = clean_rows sh := by
        unfold dropna_producto at hd
        by_cases hp : "PRODUCTO" ∈ sh.cols
        · rw [if_pos hp] at hd
          simpa using hd.symm
        · rw [if_neg hp] at hd; exact Option.noConfusion hd
      subst hlim
      simp only [if_neg (by simp : ¬((false : Bool) = true))] at hr ⊢
      have hlen := procesar_filas_len sh.cols pagina false agregar resolver
        (clean_rows sh) (hcols (pagina, sh) (by simp)).2 cid p (by simp)
      rw [List.length_append, hlen,
        ih _ _ rest (fun pr hm => hcols pr (by simp [hm])) hr]
      simp
lemma ppc_take_le (p c : ℕ) : ppc_take p c ≤ c := by
  unfold ppc_take
  simp only
  split <;> omega
lemma ppc_take_cap (p c : ℕ) (hp : p ≤ 100) : p + ppc_take p c ≤ 100 := by
  unfold ppc_take
  simp only
  split <;> omega
lemma solo_total_eq (cs : List ℕ) : ∀ p, p ≤ 100 →
    solo_total p cs = min 100 (p + (cs.map (fun c => min 4 c)).sum) := by
  induction cs with
  | nil => intro p hp; simp [solo_total]; omega
  | cons c cs ih =>
      intro p hp
      simp only [solo_total]
      by_cases h100 : 100 ≤ p
      · rw [if_pos h100]
        simp only [List.map_cons, List.sum_cons]
        omega
      · rw [if_neg h100]
        rw [ih _ (ppc_take_cap p c hp)]
        simp only [List.map_cons, List.sum_cons]
        unfold ppc_take
        simp only
        split <;> omega
lemma procesar_paginas_len_solo (agregar : Bool)
    (resolver : String → ℕ → Option String) (ps : List (String × Sheet)) :
    ∀ cid p out, p ≤ 100 →
      (∀ pr ∈ ps, "PRODUCTO" ∈ pr.2.cols ∧ "TOTAL" ∈ pr.2.cols) →
      procesar_paginas true agregar resolver ps cid p = some out →
      out.length + p
        = solo_total p (ps.map (fun pr => (clean_rows pr.2).length)) := by
  induction ps with
  | nil =>
      intro cid p out _ _ h
      simp only [procesar_paginas, Option.some.injEq] at h
      subst h; simp [solo_total]
  | cons page ps ih =>
      rcases page with ⟨pagina, sh⟩
      intro cid p out hp hcols h
      simp only [List.map_cons, solo_total]
      by_cases h100 : 100 ≤ p
      · rw [if_pos h100]
        have hnil : procesar_paginas true agregar resolver ((pagina, sh) :: ps)
            cid p = some [] := by
          simp [procesar_paginas, h100]
        rw [hnil] at h
        simp only [Option.some.injEq] at h
        subst h; simp
      · rw [if_neg h100]
        obtain ⟨limpio, rest, hd, hr, rfl⟩ :=
          procesar_paginas_cons_some true agregar resolver pagina sh ps cid p
            out (by simp [h100]) h
        have hlim : limpio = clean_rows sh := by
          unfold dropna_producto at hd
          by_cases hpc : "PRODUCTO" ∈ sh.cols
          · rw [if_pos hpc] at hd
            simpa using hd.symm
          · rw [if_neg hpc] at hd; exact Option.noConfusion hd
        subst hlim
        simp only [if_true] at hr ⊢
        set n := (clean_rows sh).length with hn
        have htake : ((clean_rows sh).take (ppc_take p n)).length = ppc_take p n := by
          rw [List.length_take]
          have := ppc_take_le p n
          omega
        have hrows : p + ((clean_rows sh).take (ppc_take p n)).length ≤ 100 := by
          rw [htake]
          exact ppc_take_cap p n (by omega)
        have hlen := procesar_filas_len sh.cols pagina true agregar resolver
          ((clean_rows sh).take (ppc_take p n))
          (hcols (pagina, sh) (by simp)).2 cid p (fun _ => hrows)
        have hcounters := procesar_filas_counters sh.cols pagina true agregar
          resolver ((clean_rows sh).take (ppc_take p n)) cid p
        have hstep2 : (procesar_filas sh.cols pagina true agregar resolver
            ((clean_rows sh).take (ppc_take p n)) cid p).2.2 = p + ppc_take p n := by
          rw [hcounters, hlen, htake]
        rw [hstep2] at hr
        have hrec := ih _ _ rest (by rw [htake] at hrows; exact hrows)
          (fun pr hm => hcols pr (by simp [hm])) hr
        rw [List.length_append, hlen, htake]
        omega
lemma solo_plan_ge100 (css : List (List Row)) : ∀ p, 100 ≤ p →
    (solo_plan p css).flatten = [] := by
  induction css with
  | nil => intro p _; simp [solo_plan]
  | cons c cs ih => intro p hp; simp [solo_plan, if_pos hp, ih p hp]
lemma procesar_paginas_names_solo (agregar : Bool)
    (resolver : String → ℕ → Option String) (ps : List (String × Sheet)) :
    ∀ cid p out, p ≤ 100 →
      (∀ pr ∈ ps, "PRODUCTO" ∈ pr.2.cols ∧ "TOTAL" ∈ pr.2.cols) →
      procesar_paginas true agregar resolver ps cid p = some out →
      out.map (fun r => r.lookup "Nombre")
        = (solo_plan p (ps.map (fun pr => clean_rows pr.2))).flatten.map
            (fun r => some (Val.vs (nombreOf r))) := by
  induction ps with
  | nil =>
      intro cid p out _ _ h
      simp only [procesar_paginas, Option.some.injEq] at h
      subst h; simp [solo_plan]
  | cons page ps ih =>
      rcases page with ⟨pagina, sh⟩
      intro cid p out hp hcols h
      by_cases h100 : 100 ≤ p
      · have hnil : procesar_paginas true agregar resolver ((pagina, sh) :: ps)
            cid p = some [] := by
          simp [procesar_paginas, h100]
        rw [hnil] at h
        simp only [Option.some.injEq] at h
        subst h
        simp only [List.map_cons, solo_plan, if_pos h100]
        have hjoin := solo_plan_ge100 (ps.map fun pr => clean_rows pr.2) p h100
        simp [hjoin]
      · obtain ⟨limpio, rest, hd, hr, rfl⟩ :=
          procesar_paginas_cons_some true agregar resolver pagina sh ps cid p
            out (by simp [h100]) h
        have hlim : limpio = clean_rows sh := by
          unfold dropna_producto at hd
          by_cases hpc : "PRODUCTO" ∈ sh.cols
          · rw [if_pos hpc] at hd
            simpa using hd.symm
          · rw [if_neg hpc] at hd; exact Option.noConfusion hd
        subst hlim
        simp only [if_true] at hr ⊢
        set n := (clean_rows sh).length with hn
        have htake : ((clean_rows sh).take (ppc_take p n)).length
            = ppc_take p n := by
          rw [List.length_take]
          have := ppc_take_le p n
          omega
        have hrows : p + ((clean_rows sh).take (ppc_take p n)).length ≤ 100 := by
          rw [htake]
          exact ppc_take_cap p n (by omega)
        have hnames := procesar_filas_names sh.cols pagina true agregar resolver
          ((clean_rows sh).take (ppc_take p n))
          (hcols (pagina, sh) (by simp)).2 cid p (fun _ => hrows)
        have hlen := procesar_filas_len sh.cols pagina true agregar resolver
          ((clean_rows sh).take (ppc_take p n))
          (hcols (pagina, sh) (by simp)).2 cid p (fun _ => hrows)
        have hcounters := procesar_filas_counters sh.cols pagina true agregar
          resolver ((clean_rows sh).take (ppc_take p n)) cid p
        have hstep2 : (procesar_filas sh.cols pagina true agregar resolver
            ((clean_rows sh).take (ppc_take p n)) cid p).2.2
            = p + ppc_take p n := by
          rw [hcounters, hlen, htake]
        rw [hstep2] at hr
        have hrec := ih _ _ rest (by rw [htake] at hrows; exact hrows)
          (fun pr hm => hcols pr (by simp [hm])) hr
        rw [List.map_append, hnames, hrec]
        simp only [List.map_cons, solo_plan, if_neg h100, List.flatten_cons,
          List.map_append]
lemma idsOk_get {l : List Record} : ∀ {n : ℕ}, idsOk n l →
    ∀ j (hj : j < l.length),
      (l.get ⟨j, hj⟩).lookup "ID" = some (.vn (n + j)) ∧
      (l.get ⟨j, hj⟩).lookup "Posición" = some (.vn (n + j)) ∧
      (l.get ⟨j, hj⟩).lookup "SKU" = some (.vs (sku (n + j))) := by
  induction l with
  | nil => intro n _ j hj; simp at hj
  | cons r rs ih =>
      intro n h j hj
      obtain ⟨hID, hPos, hSKU, hrest⟩ := h
      cases j with
      | zero => simpa using ⟨hID, hPos, hSKU⟩
      | succ j =>
          have := ih hrest j (by simpa using hj)
          have harith : n + 1 + j = n + (j + 1) := by omega
          rw [harith] at this
          simpa using this
/-- C5 (amended): in every run the `i`-th accepted record (1-based) has
`ID = i` and `Posición = i` and `SKU = "SKU-" ++` the 4-digit zero-padded
id, so the id sequence is exactly `1..N` with no gaps or repeats; when
every sheet has the expected columns, `N` is the number of rows whose
product-name cell is present (non-missing) — summed over all categories in
a full run, and `min 100 (Σ min 4 ·)` of the per-category counts in sample
mode.  (The claim's count of rows with *non-empty* product name is wrong:
a present-but-empty name is accepted and consumes an id.) -/
theorem ids_contiguous (paginas : List (String × Sheet)) (solo agregar : Bool)
    (resolver : String → ℕ → Option String) (out : List Record)
    (h : procesar_datos_a_woocommerce paginas solo agregar resolver = some out)
    (hcols : ∀ pr ∈ paginas, "PRODUCTO" ∈ pr.2.cols ∧ "TOTAL" ∈ pr.2.cols) :
    (∀ j (hj : j < out.length),
      (out.get ⟨j, hj⟩).lookup "ID" = some (.vn (j + 1)) ∧
      (out.get ⟨j, hj⟩).lookup "Posición" = some (.vn (j + 1)) ∧
      (out.get ⟨j, hj⟩).lookup "SKU" = some (.vs (sku (j + 1)))) ∧
    (solo = false →
      out.length = (paginas.map (fun pr => (clean_rows pr.2).length)).sum) ∧
    (solo = true →
      out.length
        = min 100 ((paginas.map (fun pr => min 4 (clean_rows pr.2).length)).sum)) ∧
    sku 7 = "SKU-0007" := by
  refine ⟨?_, ?_, ?_, by decide⟩
  · intro j hj
    have hids := procesar_paginas_idsOk solo agregar resolver paginas 1 0 out h
    have := idsOk_get hids j hj
    rwa [Nat.add_comm 1 j] at this
  · intro hsolo
    subst hsolo
    exact procesar_paginas_len_nosolo agregar resolver paginas 1 0 out hcols h
  · intro hsolo
    subst hsolo
    have hlen := procesar_paginas_len_solo agregar resolver paginas 1 0 out
      (by omega) hcols h
    rw [solo_total_eq _ 0 (by omega)] at hlen
    simp only [Nat.add_zero, Nat.zero_add] at hlen
    rw [hlen, List.map_map]
    rfl
/-- Witness for C5: a concrete run discharging the hypotheses, and the
claim's `SKU` example. -/
theorem ids_contiguous_witness : sku 7 = "SKU-0007" := by
  obtain ⟨out, h⟩ := Option.isSome_iff_exists.mp (by decide :
    (procesar_datos_a_woocommerce ej1 false false resolver0).isSome = true)
  exact (ids_contiguous ej1 false false resolver0 out h (by decide)).2.2.2
/-- Counterexample for C5 as stated: this input has exactly one row with a
non-empty product name, so the claim predicts the id sequence `1..1`, but
the run produces two records (the present-but-empty name consumes id 1 and
`"b"` gets id 2). -/
theorem ids_exceed_nonempty_count :
    Option.map List.length
      (procesar_datos_a_woocommerce cex5 false false resolver0) = some 2 := by
  decide
/-- C6 (amended): every output record carries exactly the fixed schema
fields in the documented order, and the exported table is that header row
followed by one data row per accepted product — but the schema has 41
columns, not the 40 the claim states. -/
theorem schema_fields_complete (paginas : List (String × Sheet))
    (solo agregar : Bool) (resolver : String → ℕ → Option String)
    (out : List Record)
    (h : procesar_datos_a_woocommerce paginas solo agregar resolver = some out) :
    (∀ rec ∈ out, rec.map Prod.fst = crear_estructura_woocommerce) ∧
    (exportar_csv_woocommerce out).head? = some crear_estructura_woocommerce ∧
    (exportar_csv_woocommerce out).length = out.length + 1 ∧
    crear_estructura_woocommerce.length = 41 :=
  ⟨procesar_paginas_keys solo agregar resolver paginas 1 0 out h, rfl,
    by simp [exportar_csv_woocommerce], by decide⟩
/-- Witness for C6: the empty run exports just the header. -/
theorem schema_fields_complete_witness :
    (exportar_csv_woocommerce []).head? = some crear_estructura_woocommerce ∧
    crear_estructura_woocommerce.length = 41 :=
  ⟨(schema_fields_complete [] false false resolver0 [] rfl).2.1,
   (schema_fields_complete [] false false resolver0 [] rfl).2.2.2⟩
/-- Counterexample for C6 as stated: the fixed schema does not have 40
columns (it has 41 — the claim's count is wrong). -/
theorem schema_not_forty : crear_estructura_woocommerce.length ≠ 40 := by decide
/-- C7 (amended): in sample mode the output size is the per-category
minimum with 4 summed over categories and truncated at the global cap of
100, and the accepted rows are the first kept rows of each category in
source order — the first rows whose product name is *present*, not (as the
claim says) the first rows with *non-empty* product name. -/
theorem sample_mode_caps (paginas : List (String × Sheet)) (agregar : Bool)
    (resolver : String → ℕ → Option String) (out : List Record)
    (h : procesar_datos_a_woocommerce paginas true agregar resolver = some out)
    (hcols : ∀ pr ∈ paginas, "PRODUCTO" ∈ pr.2.cols ∧ "TOTAL" ∈ pr.2.cols) :
    out.length
      = min 100 ((paginas.map (fun pr => min 4 (clean_rows pr.2).length)).sum) ∧
    out.map (fun r => r.lookup "Nombre")
      = (solo_plan 0 (paginas.map (fun pr => clean_rows pr.2))).flatten.map
          (fun r => some (Val.vs (nombreOf r))) := by
  constructor
  · have hlen := procesar_paginas_len_solo agregar resolver paginas 1 0 out
      (by omega) hcols h
    rw [solo_total_eq _ 0 (by omega)] at hlen
    simp only [Nat.add_zero, Nat.zero_add] at hlen
    rw [hlen, List.map_map]
    rfl
  · exact procesar_paginas_names_solo agregar resolver paginas 1 0 out
      (by omega) hcols h
/-- Witness for C7: three categories of 10 named rows produce 12 records in
sample mode, not 100. -/
theorem sample_mode_caps_witness :
    Option.map List.length
      (procesar_datos_a_woocommerce ej3 true false resolver0) = some 12 := by
  obtain ⟨out, h⟩ := Option.isSome_iff_exists.mp (by decide :
    (procesar_datos_a_woocommerce ej3 true false resolver0).isSome = true)
  rw [h]
  show some out.length = some 12
  rw [(sample_mode_caps ej3 false resolver0 out h (by decide)).1]
  decide
/-- Counterexample for C7 as stated: the category's first four rows with a
non-empty product name are `a, b, c, d`, yet sample mode accepts the
present-but-empty name and drops `d` — the accepted rows are the first
four rows with product name *present*. -/
theorem sample_rows_not_first_nonempty :
    Option.map (List.map (fun r => r.lookup "Nombre"))
      (procesar_datos_a_woocommerce cex7 true false resolver0)
      = some [some (Val.vs ""), some (Val.vs "a"), some (Val.vs "b"),
              some (Val.vs "c")] := by decide
lemma clean_rows_filter_producto (sh : Sheet) :
    clean_rows (filter_producto sh) = clean_rows sh := by
  simp only [clean_rows, filter_producto]
  rw [List.filter_filter]
  congr 1
  funext r
  simp [Bool.and_self]
lemma procesar_paginas_filter (solo agregar : Bool)
    (resolver : String → ℕ → Option String) (ps : List (String × Sheet)) :
    ∀ cid p,
      procesar_paginas solo agregar resolver
        (ps.map (fun pr => (pr.1, filter_producto pr.2))) cid p
      = procesar_paginas solo agregar resolver ps cid p := by
  induction ps with
  | nil => intro cid p; rfl
  | cons page ps ih =>
      rcases page with ⟨pagina, sh⟩
      intro cid p
      simp only [List.map_cons, procesar_paginas]
      by_cases hb : solo ∧ 100 ≤ p
      · rw [if_pos hb, if_pos hb]
      · rw [if_neg hb, if_neg hb]
        have hdp : dropna_producto (filter_producto sh) = dropna_producto sh := by
          unfold dropna_producto
          by_cases hpc : "PRODUCTO" ∈ sh.cols
          · rw [if_pos hpc,
              if_pos (show "PRODUCTO" ∈ (filter_producto sh).cols from hpc),
              clean_rows_filter_producto]
          · rw [if_neg hpc,
              if_neg (show "PRODUCTO" ∉ (filter_producto sh).cols from hpc)]
        rw [hdp]
        rcases dropna_producto sh with _ | limpio
        · rfl
        · simp only
          rw [ih]
          rfl
/-- C8 (amended): rows whose product-name cell is *missing* are dropped
before mapping, consume no id, and never appear in the output: removing
them in advance changes nothing about the run.  (A row whose product-name
cell is present but empty is NOT excluded — see the counterexample.) -/
theorem missing_rows_excluded (paginas : List (String × Sheet))
    (solo agregar : Bool) (resolver : String → ℕ → Option String) :
    procesar_datos_a_woocommerce
        (paginas.map (fun pr => (pr.1, filter_producto pr.2)))
        solo agregar resolver
      = procesar_datos_a_woocommerce paginas solo agregar resolver :=
  procesar_paginas_filter solo agregar resolver paginas 1 0
/-- Counterexample for C8 as stated: a row whose product-name field is the
empty string (present, not missing) is NOT excluded — it becomes an
output record with empty `Nombre` and consumes id 1. -/
theorem empty_name_not_excluded :
    Option.map (List.map (fun r => r.lookup "Nombre"))
      (procesar_datos_a_woocommerce cex8 false false resolver0)
      = some [some (Val.vs "")] := by decide
/-- C9 (amended): a missing TOTAL column (or any other expected column
except PRODUCTO) is non-fatal — the verification step reports the absent
expected columns and always continues, and processing completes, skipping
the affected rows; but a missing PRODUCTO column raises an uncaught error
that aborts the batch (see the counterexample). -/
theorem missing_columns_nonfatal :
    (∀ paginas solo agregar resolver,
        (∀ pr ∈ paginas, "PRODUCTO" ∈ pr.2.cols) →
        (procesar_datos_a_woocommerce paginas solo agregar resolver).isSome
          = true) ∧
    (∀ pagina sh solo agregar resolver,
        "PRODUCTO" ∈ sh.cols → "TOTAL" ∉ sh.cols →
        procesar_datos_a_woocommerce [(pagina, sh)] solo agregar resolver
          = some []) ∧
    (∀ paginas, verificar_estructura_datos paginas = true) ∧
    (∀ sh c, c ∈ columnas_faltantes sh ↔ c ∈ columnas_esperadas ∧ c ∉ sh.cols) := by
  refine ⟨?_, ?_, fun _ => rfl, ?_⟩
  · intro paginas solo agregar resolver hcols
    exact procesar_paginas_isSome solo agregar resolver paginas 1 0 hcols
  · intro pagina sh solo agregar resolver hpc htc
    have hd : dropna_producto sh = some (clean_rows sh) := by
      unfold dropna_producto; rw [if_pos hpc]
    simp only [procesar_datos_a_woocommerce, procesar_paginas,
      if_neg (show ¬(solo ∧ 100 ≤ 0) from fun hb => by omega), hd]
    rw [procesar_filas_total_missing_nil sh.cols pagina solo agregar resolver
      (if solo = true then (clean_rows sh).take (ppc_take 0 (clean_rows sh).length)
        else clean_rows sh) htc 1 0]
    rfl
  · intro sh c
    simp [columnas_faltantes]
/-- Witness for C9: with PRODUCTO present (and TOTAL absent) a concrete
run still completes. -/
theorem missing_columns_nonfatal_witness :
    procesar_datos_a_woocommerce
        [("c", ⟨["PRODUCTO"], [[("PRODUCTO", Cell.str "a")]]⟩)]
        false false resolver0 = some [] :=
  missing_columns_nonfatal.2.1 "c" ⟨["PRODUCTO"], [[("PRODUCTO", Cell.str "a")]]⟩
    false false resolver0 (by decide) (by decide)
/-- Counterexample for C9 as stated: a sheet without the PRODUCTO column
makes `dropna(subset=['PRODUCTO'])` raise an uncaught `KeyError` outside
every `try`, killing the whole batch (`none`), so the absence of an
expected column IS fatal in this case. -/
theorem missing_producto_fatal :
    procesar_datos_a_woocommerce sin_producto false false resolver0 = none := by
  decide
